import Mathlib

/-!
Shallow embedding of the console websocket bridge of `lxd/container_console.go`.

The Go file defines a `consoleWs` session object with:
  a secret map `fds : map[int]string` (key -1 is the control channel),
  a connection map `conns : map[int]*websocket.Conn`,
  two buffered (capacity 1) signal channels `allConnected` and
  `controlConnected`, and the requested terminal geometry.

We embed:
  maps as association lists over `Int` keys (a Go map lookup of a missing
  key yields the zero value, hence `connAt` returns `none` for a missing
  key and `argOf` returns the empty string),
  a buffered Go channel as a `BufChan` counter of unconsumed items
  (`send` fails, that is blocks, exactly when the buffer is full),
  the `Connect` handler as a state transition returning a
  `ConnectOutcome` (error with unchanged state, normal return, or a
  blocked channel send with the state as of the blocking point),
  the sequential skeleton of `Do`, the `finisher` closure and the mirror
  goroutine as event traces, and the control-pump goroutine loop as a
  recursive function from the list of inbound control-socket messages to
  the list of successfully applied resizes.
-/

/-- Established websocket connections are identified by a number; the Go
code only ever compares them against nil, which `Option Conn` models. -/
abbrev Conn := Nat

/-- Buffered Go channel, reduced to its capacity and the number of items
currently sitting unconsumed in the buffer. -/
structure BufChan where
  cap : Nat
  pending : Nat
  deriving DecidableEq, Repr

/-- Sending on a buffered channel: succeeds (stores the item) when the
buffer has room, otherwise the sender blocks, modelled as `none`. -/
def BufChan.send (c : BufChan) : Option BufChan :=
  if c.pending < c.cap then some ⟨c.cap, c.pending + 1⟩ else none

/-- Receiving from a buffered channel: succeeds when an item is pending,
otherwise the receiver blocks, modelled as `none`. -/
def BufChan.recv (c : BufChan) : Option BufChan :=
  if 0 < c.pending then some ⟨c.cap, c.pending - 1⟩ else none

/-- Errors the `Connect` handler can return: the `missing secret` error
built with `fmt.Errorf`, a websocket upgrade failure, and `os.ErrPermission`
(the 403 permission-denied error) for an unmatched secret. -/
inductive ConnErr where
  | missingSecret
  | upgradeFailed
  | errPermission
  deriving DecidableEq, Repr

/-- The session state of `consoleWs`. `fds` maps channel id to secret and
`conns` maps channel id to the connection slot; id -1 is the control
channel. -/
structure consoleWs where
  fds : List (Int × String)
  conns : List (Int × Option Conn)
  allConnected : BufChan
  controlConnected : BufChan
  rootUid : Int
  rootGid : Int
  width : Int
  height : Int
  deriving DecidableEq, Repr

/-- Go map read `conns[k]`: the first entry with key `k`, or the zero
value (nil, i.e. `none`) when the key is absent. -/
def connAt : List (Int × Option Conn) → Int → Option Conn
  | [], _ => none
  | p :: rest, k => if p.1 == k then p.2 else connAt rest k

/-- Go map write `conns[k] = v`: replace the entry when the key is
present, insert it otherwise. -/
def setConn (conns : List (Int × Option Conn)) (k : Int) (v : Option Conn) :
    List (Int × Option Conn) :=
  if conns.any (fun p => p.1 == k) then
    conns.map (fun p => if p.1 == k then (k, v) else p)
  else conns ++ [(k, v)]

/-- The scan in `Connect` over `s.conns`: true iff every non-control slot
holds a connection (`i != -1 && c == nil` found nowhere). -/
def allDataConnected (conns : List (Int × Option Conn)) : Bool :=
  conns.all (fun p => p.1 == -1 || p.2.isSome)

/-- Result of one `Connect` call: an error return with the resulting
state, a nil return with the resulting state, or a call stuck in a
channel send, with the state as of the blocking point (the connection is
already bound then). -/
inductive ConnectOutcome where
  | err (e : ConnErr) (s : consoleWs)
  | ok (s : consoleWs)
  | blocked (s : consoleWs)
  deriving DecidableEq, Repr

/-- Session state carried by a `Connect` outcome. -/
def ConnectOutcome.state : ConnectOutcome → consoleWs
  | .err _ s => s
  | .ok s => s
  | .blocked s => s

/-- Whether the `Connect` call returned nil. -/
def ConnectOutcome.isOk : ConnectOutcome → Bool
  | .ok _ => true
  | _ => false

/-- Whether the `Connect` call is stuck in a channel send. -/
def ConnectOutcome.isBlocked : ConnectOutcome → Bool
  | .blocked _ => true
  | _ => false

/-- The `consoleWs.Connect` handler. Rejects an empty secret, scans `fds`
for a matching secret, performs the websocket upgrade (`upgradeOk` is the
outcome of the external upgrader), records the connection in `conns`,
then signals `controlConnected` for the control channel, or signals
`allConnected` once no data slot is nil; an unmatched secret yields
`os.ErrPermission`. -/
def connect (s : consoleWs) (secret : String) (conn : Conn) (upgradeOk : Bool) :
    ConnectOutcome :=
  if secret = "" then .err .missingSecret s
  else
    match s.fds.find? (fun p => secret == p.2) with
    | none => .err .errPermission s
    | some p =>
      if upgradeOk then
        let s' := { s with conns := setConn s.conns p.1 (some conn) }
        if p.1 = -1 then
          match s'.controlConnected.send with
          | some ch => .ok { s' with controlConnected := ch }
          | none => .blocked s'
        else
          if allDataConnected s'.conns then
            match s'.allConnected.send with
            | some ch => .ok { s' with allConnected := ch }
            | none => .blocked s'
          else .ok s'
      else .err .upgradeFailed s

/-- The receive `<-s.allConnected` performed at the top of `Do`,
consuming one pending data-ready signal. -/
def recvAllConnectedOp (s : consoleWs) : Option consoleWs :=
  (s.allConnected.recv).map (fun ch => { s with allConnected := ch })

/-- The `consoleWs.Metadata` method: wraps under the single key `fds` the
secret map, with key -1 rendered as `control` and any other id rendered
in decimal. -/
def Metadata (s : consoleWs) : List (String × List (String × String)) :=
  [("fds", s.fds.map (fun p => (if p.1 = -1 then "control" else toString p.1, p.2)))]

/-- The view `containerConsolePost` needs of a loaded container: the
running and frozen states and the result of `IdmapSet` (`none` models an
error; `some none` a nil idmap set; `some (some (u, g))` an idmap set
whose `ShiftIntoNs 0 0` yields `(u, g)`). -/
structure ContainerInfo where
  running : Bool
  frozen : Bool
  idmap : Option (Option (Int × Int))
  deriving DecidableEq, Repr

/-- The decoded request body `api.ContainerConsolePost`. -/
structure ConsolePost where
  width : Int
  height : Int
  deriving DecidableEq, Repr

/-- Responses `containerConsolePost` can produce. -/
inductive Response where
  | smartError
  | badRequest (msg : String)
  | internalError
  | operationResponse (meta : List (String × List (String × String))) (ws : consoleWs)
  deriving DecidableEq, Repr

/-- The `containerConsolePost` request handler: loads the container
(`cLoad`), rejects a container that is not running or is frozen with
BadRequest, decodes the body (`body`, with read and unmarshal failures as
`.error`), resolves the idmap, builds the session with slots -1 and 0 and
one fresh secret per slot (`rand` is the external `RandomCryptoString`),
and creates the websocket operation carrying the session metadata
(`opOk` is the outcome of `operationCreate`). -/
def containerConsolePost (cLoad : Option ContainerInfo) (body : Except String ConsolePost)
    (rand : Int → Option String) (opOk : Bool) : Response :=
  match cLoad with
  | none => .smartError
  | some c =>
    if c.running = false then .badRequest "Container is not running"
    else if c.frozen = true then .badRequest "Container is frozen"
    else
      match body with
      | .error e => .badRequest e
      | .ok post =>
        match c.idmap with
        | none => .internalError
        | some im =>
          let root := im.getD (0, 0)
          match rand (-1), rand 0 with
          | some s₁, some s₂ =>
            let ws : consoleWs :=
              { fds := [(-1, s₁), (0, s₂)]
                conns := [(-1, none), (0, none)]
                allConnected := ⟨1, 0⟩
                controlConnected := ⟨1, 0⟩
                rootUid := root.1
                rootGid := root.2
                width := post.width
                height := post.height }
            if opOk then .operationResponse (Metadata ws) ws else .internalError
          | _, _ => .internalError

/-- Digit run of Go `strconv.Atoi`: accumulates base-10 digits, failing
on the first non-digit character. -/
def atoiDigits : List Char → Nat → Option Nat
  | [], acc => some acc
  | c :: rest, acc =>
    if c.isDigit then atoiDigits rest (acc * 10 + (c.toNat - '0'.toNat)) else none

/-- Go `strconv.Atoi` over a character list: an optional sign followed by
a nonempty digit string. -/
def atoiChars : List Char → Option Int
  | [] => none
  | c :: rest =>
    if c = '-' then
      if rest.isEmpty then none else (atoiDigits rest 0).map (fun n => -(n : Int))
    else if c = '+' then
      if rest.isEmpty then none else (atoiDigits rest 0).map (fun n => (n : Int))
    else (atoiDigits (c :: rest) 0).map (fun n => (n : Int))

/-- Go `strconv.Atoi`. -/
def atoi (s : String) : Option Int :=
  atoiChars s.data

/-- Go map read `args[k]` on the decoded string map: first match or the
zero value (the empty string). -/
def argOf (args : List (String × String)) (k : String) : String :=
  match args.find? (fun p => p.1 == k) with
  | some p => p.2
  | none => ""

/-- One inbound event on the control socket, as seen by the pump loop in
`Do`: a close frame, an error from `NextReader`, an error from `ReadAll`,
a payload `json.Unmarshal` rejects, or a decoded command with its string
argument map. -/
inductive CtlMsg where
  | closeFrame
  | readError
  | readAllError
  | malformed
  | cmd (name : String) (args : List (String × String))
  deriving DecidableEq, Repr

/-- The control-pump loop of `Do`, from the list of inbound control
messages to the list of window geometries successfully applied with
`SetSize` (`setSizeOk` is the outcome of the external resize call). A
close frame, a reader error or a read failure breaks the loop; an
unmarshal failure, an unrecognized command, an unparseable width or
height, or a failed resize skips to the next message. -/
def controlPump (setSizeOk : Int → Int → Bool) : List CtlMsg → List (Int × Int)
  | [] => []
  | .closeFrame :: _ => []
  | .readError :: _ => []
  | .readAllError :: _ => []
  | .malformed :: rest => controlPump setSizeOk rest
  | .cmd name args :: rest =>
    if name = "window-resize" then
      match atoi (argOf args "width") with
      | none => controlPump setSizeOk rest
      | some w =>
        match atoi (argOf args "height") with
        | none => controlPump setSizeOk rest
        | some h =>
          if setSizeOk w h then (w, h) :: controlPump setSizeOk rest
          else controlPump setSizeOk rest
    else controlPump setSizeOk rest

/-- Observable steps of the orchestrator, the finisher and the mirror
goroutine. -/
inductive Event where
  | waitAllConnected
  | openPty
  | setSize (w h : Int) (ok : Bool)
  | startPump
  | startMirror
  | consoleAttach
  | closeSlave
  | evalControlShutdown
  | controlExitSignal
  | waitMirror
  | closeMaster
  | mirrorRecvReadDone
  | mirrorRecvWriteDone
  | dataConnClose
  | mirrorWgDone
  deriving DecidableEq, Repr

/-- Steps of the `finisher` closure in `Do`: close the slave, read the
control slot and, when it is nil, fire `controlExit`; then wait on the
mirror wait group and close the master. -/
def finisherEvents (controlConn : Option Conn) : List Event :=
  [.closeSlave, .evalControlShutdown] ++
    (if controlConn.isNone then [.controlExitSignal] else []) ++
    [.waitMirror, .closeMaster]

/-- The `finisher` closure: performs its steps and returns its argument
unchanged. -/
def finisher (controlConn : Option Conn) (cmdErr : Option String) :
    List Event × Option String :=
  (finisherEvents controlConn, cmdErr)

/-- Steps of the mirror goroutine in `Do`: receive from `readDone`,
receive from `writeDone`, close the data connection, then mark the wait
group done. -/
def mirrorEvents : List Event :=
  [.mirrorRecvReadDone, .mirrorRecvWriteDone, .dataConnClose, .mirrorWgDone]

/-- The sequential skeleton of `consoleWs.Do`: wait for the data-ready
signal, open the pty (`ptyOk` is the outcome of `OpenPty`; failure is
fatal), apply the initial geometry when width and height are positive
(`resizeOk` is the outcome of `SetSize`, which `Do` discards), start the
pump and mirror goroutines, run the workload attach (`consoleErr` is what
`container.Console` returns); on a nil attach result run the finisher,
on an error return it at once. -/
def doRun (s : consoleWs) (ptyOk : Bool) (resizeOk : Bool) (consoleErr : Option String) :
    List Event × Option String :=
  if ptyOk then
    let pre := [Event.waitAllConnected, Event.openPty] ++
      (if 0 < s.width ∧ 0 < s.height then [Event.setSize s.width s.height resizeOk] else []) ++
      [Event.startPump, Event.startMirror, Event.consoleAttach]
    match consoleErr with
    | some e => (pre, some e)
    | none => (pre ++ finisherEvents (connAt s.conns (-1)), none)
  else ([Event.waitAllConnected], some "openpty failed")

/-- All geometries successfully applied to the pty over a whole session:
the initial resize (applied exactly when width and height are positive,
kept when the discarded `SetSize` outcome was a success), followed by the
resizes of the control pump, which only runs its loop when the control
channel connected; when it never connects the pump is released by the
`controlExit` signal of the finisher and applies nothing. -/
def sessionResizes (s : consoleWs) (resizeOk : Bool) (controlConnected : Bool)
    (setSizeOk : Int → Int → Bool) (msgs : List CtlMsg) : List (Int × Int) :=
  (if 0 < s.width ∧ 0 < s.height then (if resizeOk then [(s.width, s.height)] else []) else []) ++
    (if controlConnected then controlPump setSizeOk msgs else [])

/-- Sample session as built by `containerConsolePost`: control secret
`ctl`, data secret `dat`, both slots nil, both signal channels buffered
with capacity one and empty. -/
def sampleWs : consoleWs :=
  { fds := [(-1, "ctl"), (0, "dat")]
    conns := [(-1, none), (0, none)]
    allConnected := ⟨1, 0⟩
    controlConnected := ⟨1, 0⟩
    rootUid := 0
    rootGid := 0
    width := 0
    height := 0 }

/-! Lemmas about the connection table: map reads after a map write, and
the all-data-channels-bound predicate. -/

theorem connAt_map_set_self (k : Int) (v : Option Conn) :
    ∀ conns : List (Int × Option Conn), conns.any (fun p => p.1 == k) = true →
      connAt (conns.map (fun p => if p.1 == k then (k, v) else p)) k = v
  | [], h => by simp at h
  | p :: rest, h => by
    by_cases hp : p.1 = k
    · simp [connAt, hp]
    · have hpb : (p.1 == k) = false := by simp [hp]
      rw [List.any_cons, hpb, Bool.false_or] at h
      simpa [connAt, hp, hpb] using connAt_map_set_self k v rest h

theorem connAt_map_set_ne (k k' : Int) (v : Option Conn) (hne : k' ≠ k) :
    ∀ conns : List (Int × Option Conn),
      connAt (conns.map (fun p => if p.1 == k then (k, v) else p)) k' = connAt conns k'
  | [] => by simp [connAt]
  | p :: rest => by
    by_cases hp : p.1 = k
    · have h1 : (k == k') = false := by simp [Ne.symm hne]
      have h2 : (p.1 == k') = false := by simp [hp, Ne.symm hne]
      simpa [connAt, hp, h1, h2] using connAt_map_set_ne k k' v hne rest
    · by_cases hq : p.1 = k'
      · simp [connAt, hp, hq, hne]
      · simpa [connAt, hp, hq] using connAt_map_set_ne k k' v hne rest

theorem connAt_append_single_ne (k k' : Int) (v : Option Conn) (hne : k' ≠ k) :
    ∀ conns : List (Int × Option Conn),
      connAt (conns ++ [(k, v)]) k' = connAt conns k'
  | [] => by
    have h1 : (k == k') = false := by simp [Ne.symm hne]
    simp [connAt, h1]
  | p :: rest => by
    by_cases hq : p.1 = k'
    · simp [connAt, hq]
    · simpa [connAt, hq] using connAt_append_single_ne k k' v hne rest

theorem connAt_append_single_self (k : Int) (v : Option Conn) :
    ∀ conns : List (Int × Option Conn), conns.any (fun p => p.1 == k) = false →
      connAt (conns ++ [(k, v)]) k = v
  | [], _ => by simp [connAt]
  | p :: rest, h => by
    simp only [List.any_cons, Bool.or_eq_false_iff] at h
    simpa [connAt, h.1] using connAt_append_single_self k v rest h.2

theorem connAt_setConn_self (conns : List (Int × Option Conn)) (k : Int) (v : Option Conn) :
    connAt (setConn conns k v) k = v := by
  unfold setConn
  split
  · rename_i h
    exact connAt_map_set_self k v conns h
  · rename_i h
    rw [Bool.not_eq_true] at h
    exact connAt_append_single_self k v conns h

theorem connAt_setConn_ne (conns : List (Int × Option Conn)) (k k' : Int) (v : Option Conn)
    (hne : k' ≠ k) : connAt (setConn conns k v) k' = connAt conns k' := by
  unfold setConn
  split
  · exact connAt_map_set_ne k k' v hne conns
  · exact connAt_append_single_ne k k' v hne conns

theorem allDataConnected_setConn_some (conns : List (Int × Option Conn)) (k : Int) (c : Conn)
    (h : allDataConnected conns = true) :
    allDataConnected (setConn conns k (some c)) = true := by
  unfold setConn
  split
  · simp only [allDataConnected, List.all_eq_true] at h ⊢
    intro q hq
    rcases List.mem_map.mp hq with ⟨p, hp, rfl⟩
    by_cases hpk : p.1 = k
    · simp [hpk]
    · simpa [hpk] using h p hp
  · simp only [allDataConnected, List.all_eq_true] at h ⊢
    intro q hq
    rcases List.mem_append.mp hq with hq | hq
    · exact h q hq
    · simp at hq
      simp [hq]

theorem allDataConnected_eq_false_iff (conns : List (Int × Option Conn)) :
    allDataConnected conns = false ↔ ∃ p ∈ conns, p.1 ≠ -1 ∧ p.2 = none := by
  simp [allDataConnected, List.all_eq_false, Option.isSome_iff_ne_none]

theorem connAt_isSome_setConn (conns : List (Int × Option Conn)) (k fd : Int) (c : Conn)
    (h : (connAt conns fd).isSome = true) :
    (connAt (setConn conns k (some c)) fd).isSome = true := by
  by_cases hfd : fd = k
  · subst hfd
    simp [connAt_setConn_self]
  · rwa [connAt_setConn_ne conns k fd (some c) hfd]

/-- Claim C1 (code bug evidence): when the workload attach call
`container.Console` returns an error, `Do` returns that error at once,
and the shutdown sequence is skipped entirely: the orchestrator trace
contains no slave close, no master close and no wait on the mirror — the
early `return err` at line 223 bypasses the `finisher` call. -/
theorem do_console_error_skips_finisher (s : consoleWs) (b : Bool) (e : String) :
    (doRun s true b (some e)).2 = some e ∧
      Event.closeSlave ∉ (doRun s true b (some e)).1 ∧
      Event.closeMaster ∉ (doRun s true b (some e)).1 ∧
      Event.waitMirror ∉ (doRun s true b (some e)).1 := by
  unfold doRun
  by_cases h : 0 < s.width ∧ 0 < s.height <;> simp [h]

/-- Claim C2 counterexample: a handshake with a missing (empty) secret
fails with the plain `missing secret` error, which is not the permission
error `os.ErrPermission`; hence not every rejected handshake fails with
the 403 permission-denied error. -/
theorem connect_missing_secret_cex :
    connect sampleWs "" 1 true = .err .missingSecret sampleWs ∧
      ConnErr.missingSecret ≠ ConnErr.errPermission := ⟨rfl, by decide⟩

/-- Claim C2 (amended): a handshake with an empty secret fails with the
plain `missing secret` error; a nonempty secret matching no registered
channel fails with `os.ErrPermission` (403 permission-denied); in both
cases the session state, in particular every connection slot, is returned
exactly as it was. -/
theorem connect_reject_unbound (s : consoleWs) (secret : String) (conn : Conn) (u : Bool) :
    (secret = "" → connect s secret conn u = .err .missingSecret s) ∧
      (¬ secret = "" → s.fds.find? (fun p => secret == p.2) = none →
        connect s secret conn u = .err .errPermission s) := by
  constructor
  · intro h
    simp [connect, h]
  · intro h hf
    simp [connect, h, hf]

/-- Witness for claim C2: the amended theorem applied to the sample
session at an empty and at an unmatched secret. -/
theorem connect_reject_unbound_witness :
    connect sampleWs "" 1 true = .err .missingSecret sampleWs ∧
      connect sampleWs "zzz" 1 true = .err .errPermission sampleWs :=
  ⟨(connect_reject_unbound sampleWs "" 1 true).1 rfl,
   (connect_reject_unbound sampleWs "zzz" 1 true).2 (by decide) (by decide)⟩

/-- Claim C9 counterexample, for both one-shot ready signals: on the
session built by the handler, a first control handshake succeeds and
leaves the control-ready signal pending, and a second control handshake
made while that signal is still unconsumed blocks in the channel send
(capacity-one buffered channel) instead of dropping the signal as a
no-op; likewise a first data handshake leaves the data-ready signal
pending and a second data handshake made while it is still unconsumed
blocks in the `allConnected` send. -/
theorem connect_second_signal_blocks_cex :
    ((connect sampleWs "ctl" 1 true).isOk = true ∧
      (connect ((connect sampleWs "ctl" 1 true).state) "ctl" 2 true).isBlocked = true) ∧
      ((connect sampleWs "dat" 1 true).isOk = true ∧
        (connect ((connect sampleWs "dat" 1 true).state) "dat" 2 true).isBlocked = true) := by
  decide

/-- Claim C9 (amended): both one-shot ready signals are capacity-one
buffered channels. For the control-ready signal (a handshake matching the
control channel) and for the data-ready signal (a handshake matching a
data channel after which every data slot is bound) alike: a signal
attempt made while the buffer is empty succeeds without blocking, while a
signal attempt made while a previous signal is still unconsumed blocks
the signaling handshake until the signal is consumed — it does not fail,
but it is not a no-op either. -/
theorem connect_signal_latch (s : consoleWs) (c : Conn) (secret : String) (p : Int × String)
    (hs : ¬ secret = "")
    (hf : s.fds.find? (fun q => secret == q.2) = some p) :
    (p.1 = -1 → s.controlConnected.cap = 1 →
      (s.controlConnected.pending = 0 → (connect s secret c true).isOk = true) ∧
        (1 ≤ s.controlConnected.pending → (connect s secret c true).isBlocked = true)) ∧
      (¬ p.1 = -1 → s.allConnected.cap = 1 →
        allDataConnected (setConn s.conns p.1 (some c)) = true →
        (s.allConnected.pending = 0 → (connect s secret c true).isOk = true) ∧
          (1 ≤ s.allConnected.pending → (connect s secret c true).isBlocked = true)) := by
  constructor
  · intro hp hcap
    constructor
    · intro h0
      simp [connect, hs, hf, hp, BufChan.send, hcap, h0, ConnectOutcome.isOk]
    · intro h1
      have hnb : ¬ (s.controlConnected.pending < s.controlConnected.cap) := by omega
      simp [connect, hs, hf, hp, BufChan.send, hnb, ConnectOutcome.isBlocked]
  · intro hp hcap ha
    constructor
    · intro h0
      simp [connect, hs, hf, hp, ha, BufChan.send, hcap, h0, ConnectOutcome.isOk]
    · intro h1
      have hnb : ¬ (s.allConnected.pending < s.allConnected.cap) := by omega
      simp [connect, hs, hf, hp, ha, BufChan.send, hnb, ConnectOutcome.isBlocked]

/-- Witness for claim C9: the amended theorem applied to the sample
session, for the control signal and for the data signal, each with an
empty and then with a full signal buffer. -/
theorem connect_signal_latch_witness :
    (connect sampleWs "ctl" 1 true).isOk = true ∧
      (connect { sampleWs with controlConnected := ⟨1, 1⟩ } "ctl" 2 true).isBlocked = true ∧
      (connect sampleWs "dat" 1 true).isOk = true ∧
      (connect { sampleWs with allConnected := ⟨1, 1⟩ } "dat" 2 true).isBlocked = true :=
  ⟨((connect_signal_latch sampleWs 1 "ctl" (-1, "ctl") (by decide) (by decide)).1
      rfl rfl).1 rfl,
   ((connect_signal_latch { sampleWs with controlConnected := ⟨1, 1⟩ } 2 "ctl" (-1, "ctl")
      (by decide) (by decide)).1 rfl rfl).2 (by decide),
   ((connect_signal_latch sampleWs 1 "dat" (0, "dat") (by decide) (by decide)).2
      (by decide) rfl (by decide)).1 rfl,
   ((connect_signal_latch { sampleWs with allConnected := ⟨1, 1⟩ } 2 "dat" (0, "dat")
      (by decide) (by decide)).2 (by decide) rfl (by decide)).2 (by decide)⟩

/-- Claim C10: a console request for a container that is not running, or
that is frozen, is rejected with BadRequest (`Container is not running` /
`Container is frozen`) independently of the secret generator and of the
operation framework — no secrets are generated and no operation started,
as the response carries no session. -/
theorem console_post_rejects_inactive (c : ContainerInfo) (body : Except String ConsolePost)
    (rand : Int → Option String) (opOk : Bool) :
    (c.running = false →
      containerConsolePost (some c) body rand opOk = .badRequest "Container is not running") ∧
      (c.running = true → c.frozen = true →
        containerConsolePost (some c) body rand opOk = .badRequest "Container is frozen") := by
  constructor
  · intro h
    simp [containerConsolePost, h]
  · intro h1 h2
    simp [containerConsolePost, h1, h2]

/-- Witness for claim C10: the theorem applied to a stopped and to a
frozen container. -/
theorem console_post_rejects_inactive_witness :
    containerConsolePost (some ⟨false, false, some none⟩) (.ok ⟨120, 40⟩)
        (fun _ => some "s") true = .badRequest "Container is not running" ∧
      containerConsolePost (some ⟨true, true, some none⟩) (.ok ⟨120, 40⟩)
        (fun _ => some "s") true = .badRequest "Container is frozen" :=
  ⟨(console_post_rejects_inactive ⟨false, false, some none⟩ (.ok ⟨120, 40⟩)
      (fun _ => some "s") true).1 rfl,
   (console_post_rejects_inactive ⟨true, true, some none⟩ (.ok ⟨120, 40⟩)
      (fun _ => some "s") true).2 rfl rfl⟩

/-- Claim C5: in the shutdown sequence the slave close is ordered before
the evaluation of the control-shutdown path, and the master close is
ordered after the wait on the mirror wait group, which the mirror
goroutine marks done only after both the read-done and the write-done
signals of the two mirror directions were received; the finisher returns
its argument error unchanged. -/
theorem shutdown_ordering (ctl : Option Conn) (ce : Option String) :
    finisher ctl ce = (finisherEvents ctl, ce) ∧
      (finisherEvents ctl).indexOf Event.closeSlave <
        (finisherEvents ctl).indexOf Event.evalControlShutdown ∧
      (finisherEvents ctl).indexOf Event.waitMirror <
        (finisherEvents ctl).indexOf Event.closeMaster ∧
      mirrorEvents.indexOf Event.mirrorRecvReadDone < mirrorEvents.indexOf Event.mirrorWgDone ∧
      mirrorEvents.indexOf Event.mirrorRecvWriteDone < mirrorEvents.indexOf Event.mirrorWgDone := by
  cases ctl <;> simp [finisher, finisherEvents, mirrorEvents]

/-- Claim C3 counterexample: two handshake attempts presenting the same
valid data secret both succeed: the first binds connection 1, and after
the orchestrator consumes the data-ready signal the second also returns
nil and overwrites the slot with connection 2 — it is not the case that
exactly one of the two succeeds in binding the slot. -/
theorem connect_duplicate_bind_cex :
    (connect sampleWs "dat" 1 true).isOk = true ∧
      connAt ((connect sampleWs "dat" 1 true).state).conns 0 = some 1 ∧
      (connect ((recvAllConnectedOp ((connect sampleWs "dat" 1 true).state)).getD sampleWs)
          "dat" 2 true).isOk = true ∧
      connAt ((connect ((recvAllConnectedOp
          ((connect sampleWs "dat" 1 true).state)).getD sampleWs) "dat" 2 true).state).conns 0 =
        some 2 := by
  decide

/-- Claim C3 (amended): a connection slot is never reset to absent by a
handshake — once present it stays present over any `Connect` call; but a
second handshake presenting the same valid token also succeeds and
overwrites the slot with its own connection. -/
theorem connect_slot_monotone_overwrite (s : consoleWs) (secret : String) (c : Conn)
    (u : Bool) (fd : Int) (p : Int × String) :
    ((connAt s.conns fd).isSome = true →
      (connAt ((connect s secret c u).state).conns fd).isSome = true) ∧
      (¬ secret = "" → s.fds.find? (fun q => secret == q.2) = some p →
        connAt ((connect s secret c true).state).conns p.1 = some c) := by
  constructor
  · intro h
    by_cases hs : secret = ""
    · simpa [connect, hs, ConnectOutcome.state] using h
    · cases hf : s.fds.find? (fun q => secret == q.2) with
      | none => simpa [connect, hs, hf, ConnectOutcome.state] using h
      | some q =>
        cases u with
        | false => simpa [connect, hs, hf, ConnectOutcome.state] using h
        | true =>
          by_cases hq : q.1 = -1
          · cases hc : ({ s with conns := setConn s.conns q.1 (some c) } :
                consoleWs).controlConnected.send with
            | none =>
              simp [connect, hs, hf, hq, hc, ConnectOutcome.state]
              exact hq ▸ connAt_isSome_setConn s.conns q.1 fd c h
            | some ch =>
              simp [connect, hs, hf, hq, hc, ConnectOutcome.state]
              exact hq ▸ connAt_isSome_setConn s.conns q.1 fd c h
          · by_cases ha : allDataConnected (setConn s.conns q.1 (some c)) = true
            · cases hc : ({ s with conns := setConn s.conns q.1 (some c) } :
                  consoleWs).allConnected.send with
              | none =>
                simp [connect, hs, hf, hq, ha, hc, ConnectOutcome.state]
                exact connAt_isSome_setConn s.conns q.1 fd c h
              | some ch =>
                simp [connect, hs, hf, hq, ha, hc, ConnectOutcome.state]
                exact connAt_isSome_setConn s.conns q.1 fd c h
            · simp [connect, hs, hf, hq, ha, ConnectOutcome.state]
              exact connAt_isSome_setConn s.conns q.1 fd c h
  · intro hs hf
    by_cases hq : p.1 = -1
    · cases hc : ({ s with conns := setConn s.conns p.1 (some c) } :
          consoleWs).controlConnected.send with
      | none => simp [connect, hs, hf, hq, hc, ConnectOutcome.state, connAt_setConn_self]
      | some ch => simp [connect, hs, hf, hq, hc, ConnectOutcome.state, connAt_setConn_self]
    · by_cases ha : allDataConnected (setConn s.conns p.1 (some c)) = true
      · cases hc : ({ s with conns := setConn s.conns p.1 (some c) } :
            consoleWs).allConnected.send with
        | none => simp [connect, hs, hf, hq, ha, hc, ConnectOutcome.state, connAt_setConn_self]
        | some ch => simp [connect, hs, hf, hq, ha, hc, ConnectOutcome.state, connAt_setConn_self]
      · simp [connect, hs, hf, hq, ha, ConnectOutcome.state, connAt_setConn_self]

/-- Witness for claim C3: the amended theorem applied to the sample
session with a bound data slot. -/
theorem connect_slot_monotone_overwrite_witness :
    ((connAt ({ sampleWs with conns := [(-1, none), (0, some 1)] } : consoleWs).conns 0).isSome
        = true ∧
      (connAt ((connect { sampleWs with conns := [(-1, none), (0, some 1)] }
        "dat" 2 true).state).conns 0).isSome = true) ∧
      connAt ((connect sampleWs "dat" 2 true).state).conns 0 = some 2 :=
  ⟨⟨by decide,
    (connect_slot_monotone_overwrite { sampleWs with conns := [(-1, none), (0, some 1)] }
      "dat" 2 true 0 (0, "dat")).1 (by decide)⟩,
   (connect_slot_monotone_overwrite sampleWs "dat" 2 true 0 (0, "dat")).2
     (by decide) (by decide)⟩

/-- Claim C4: the all-data-channels-bound predicate is monotonic — once
true it remains true after any further handshake; it is false exactly
while some non-control slot is absent; and the data-ready signal is fired
only when it is true: whenever a `Connect` call grows the pending count
of the `allConnected` channel, the predicate holds in the new state. -/
theorem allDataConnected_monotone (s : consoleWs) (secret : String) (c : Conn) (u : Bool) :
    (allDataConnected s.conns = true →
      allDataConnected ((connect s secret c u).state).conns = true) ∧
      (allDataConnected s.conns = false ↔ ∃ p ∈ s.conns, p.1 ≠ -1 ∧ p.2 = none) ∧
      (s.allConnected.pending < ((connect s secret c u).state).allConnected.pending →
        allDataConnected ((connect s secret c u).state).conns = true) := by
  refine ⟨?_, allDataConnected_eq_false_iff s.conns, ?_⟩
  · intro h
    by_cases hs : secret = ""
    · simpa [connect, hs, ConnectOutcome.state] using h
    · cases hf : s.fds.find? (fun q => secret == q.2) with
      | none => simpa [connect, hs, hf, ConnectOutcome.state] using h
      | some q =>
        cases u with
        | false => simpa [connect, hs, hf, ConnectOutcome.state] using h
        | true =>
          by_cases hq : q.1 = -1
          · cases hc : ({ s with conns := setConn s.conns q.1 (some c) } :
                consoleWs).controlConnected.send with
            | none =>
              simp [connect, hs, hf, hq, hc, ConnectOutcome.state]
              exact hq ▸ allDataConnected_setConn_some s.conns q.1 c h
            | some ch =>
              simp [connect, hs, hf, hq, hc, ConnectOutcome.state]
              exact hq ▸ allDataConnected_setConn_some s.conns q.1 c h
          · by_cases ha : allDataConnected (setConn s.conns q.1 (some c)) = true
            · cases hc : ({ s with conns := setConn s.conns q.1 (some c) } :
                  consoleWs).allConnected.send with
              | none => simp [connect, hs, hf, hq, ha, hc, ConnectOutcome.state, ha]
              | some ch => simp [connect, hs, hf, hq, ha, hc, ConnectOutcome.state, ha]
            · exact absurd (allDataConnected_setConn_some s.conns q.1 c h) ha
  · intro h
    by_cases hs : secret = ""
    · simp [connect, hs, ConnectOutcome.state] at h
    · cases hf : s.fds.find? (fun q => secret == q.2) with
      | none => simp [connect, hs, hf, ConnectOutcome.state] at h
      | some q =>
        cases u with
        | false => simp [connect, hs, hf, ConnectOutcome.state] at h
        | true =>
          by_cases hq : q.1 = -1
          · cases hc : ({ s with conns := setConn s.conns q.1 (some c) } :
                consoleWs).controlConnected.send with
            | none => simp [connect, hs, hf, hq, hc, ConnectOutcome.state] at h
            | some ch => simp [connect, hs, hf, hq, hc, ConnectOutcome.state] at h
          · by_cases ha : allDataConnected (setConn s.conns q.1 (some c)) = true
            · cases hc : ({ s with conns := setConn s.conns q.1 (some c) } :
                  consoleWs).allConnected.send with
              | none => simp [connect, hs, hf, hq, ha, hc, ConnectOutcome.state] at h
              | some ch => simp [connect, hs, hf, hq, ha, hc, ConnectOutcome.state]
            · simp [connect, hs, hf, hq, ha, ConnectOutcome.state] at h

/-- Witness for claim C4: the theorem applied to the sample session, all
three conjuncts discharged on concrete states. -/
theorem allDataConnected_monotone_witness :
    (allDataConnected sampleWs.conns = false ∧
      (∃ p ∈ sampleWs.conns, p.1 ≠ -1 ∧ p.2 = none)) ∧
      (allDataConnected ({ sampleWs with conns := [(-1, none), (0, some 1)] } :
          consoleWs).conns = true ∧
        allDataConnected ((connect { sampleWs with conns := [(-1, none), (0, some 1)] }
          "dat" 2 true).state).conns = true) ∧
      (sampleWs.allConnected.pending <
          ((connect sampleWs "dat" 1 true).state).allConnected.pending ∧
        allDataConnected ((connect sampleWs "dat" 1 true).state).conns = true) :=
  ⟨⟨by decide, (allDataConnected_monotone sampleWs "dat" 1 true).2.1.mp (by decide)⟩,
   ⟨by decide, (allDataConnected_monotone { sampleWs with conns := [(-1, none), (0, some 1)] }
      "dat" 2 true).1 (by decide)⟩,
   ⟨by decide, (allDataConnected_monotone sampleWs "dat" 1 true).2.2 (by decide)⟩⟩

/-- Claim C6: after pty allocation the initial geometry is applied
exactly when both configured width and height are strictly positive; the
session outcome does not depend on the outcome of that resize call
(non-fatal, the result of `SetSize` is discarded); and with geometry
120x40 and no control channel ever connecting, the pty is resized at
most this once and never again. -/
theorem initial_resize_policy (s : consoleWs) (b : Bool) (ce : Option String)
    (env : Int → Int → Bool) (msgs : List CtlMsg) :
    ((Event.setSize s.width s.height b ∈ (doRun s true b ce).1) ↔
        (0 < s.width ∧ 0 < s.height)) ∧
      ((doRun s true b ce).2 = ce) ∧
      (s.width = 120 → s.height = 40 →
        sessionResizes s b false env msgs = (if b then [(120, 40)] else [])) := by
  refine ⟨?_, ?_, ?_⟩
  · by_cases h : 0 < s.width ∧ 0 < s.height
    · cases ce <;> by_cases hn : (connAt s.conns (-1)).isNone <;>
        simp [doRun, finisherEvents, h, hn]
    · cases ce <;> by_cases hn : (connAt s.conns (-1)).isNone <;>
        simp [doRun, finisherEvents, h, hn]
  · by_cases h : 0 < s.width ∧ 0 < s.height <;> cases ce <;> simp [doRun, h]
  · intro hw hh
    cases b <;> simp [sessionResizes, hw, hh]

/-- Witness for claim C6: the theorem applied at geometry 120x40 with no
control channel. -/
theorem initial_resize_policy_witness :
    (Event.setSize 120 40 true ∈
        (doRun { sampleWs with width := 120, height := 40 } true true none).1 ↔
      (0 < (120 : Int) ∧ 0 < (40 : Int))) ∧
      sessionResizes { sampleWs with width := 120, height := 40 } true false
        (fun _ _ => true) [] = [(120, 40)] :=
  ⟨(initial_resize_policy { sampleWs with width := 120, height := 40 } true none
      (fun _ _ => true) []).1,
   (initial_resize_policy { sampleWs with width := 120, height := 40 } true none
      (fun _ _ => true) []).2.2 rfl rfl⟩

/-- Claim C7: the control-pump loop terminates exactly on a close frame
or a read error of the control socket; an undecodable payload, an unknown
command, a non-numeric width or height, and a failed resize call are all
skipped, leaving the applied geometry unchanged and the loop running. -/
theorem controlPump_skip_terminate (env : Int → Int → Bool) (rest : List CtlMsg)
    (name : String) (args : List (String × String)) :
    controlPump env (.closeFrame :: rest) = [] ∧
      controlPump env (.readError :: rest) = [] ∧
      controlPump env (.readAllError :: rest) = [] ∧
      controlPump env (.malformed :: rest) = controlPump env rest ∧
      (¬ name = "window-resize" →
        controlPump env (.cmd name args :: rest) = controlPump env rest) ∧
      (atoi (argOf args "width") = none →
        controlPump env (.cmd "window-resize" args :: rest) = controlPump env rest) ∧
      (∀ w, atoi (argOf args "width") = some w → atoi (argOf args "height") = none →
        controlPump env (.cmd "window-resize" args :: rest) = controlPump env rest) ∧
      (∀ w h, atoi (argOf args "width") = some w → atoi (argOf args "height") = some h →
        env w h = false →
        controlPump env (.cmd "window-resize" args :: rest) = controlPump env rest) := by
  refine ⟨rfl, rfl, rfl, rfl, ?_, ?_, ?_, ?_⟩
  · intro h
    simp [controlPump, h]
  · intro h
    simp [controlPump, h]
  · intro w hw hh
    simp [controlPump, hw, hh]
  · intro w h hw hh he
    simp [controlPump, hw, hh, he]

/-- Witness for claim C7: the theorem applied to concrete control
messages: close frame, unknown command, non-numeric width, non-numeric
height, failing resize. -/
theorem controlPump_skip_terminate_witness :
    controlPump (fun _ _ => false) (.closeFrame :: [.cmd "window-resize"
        [("width", "80"), ("height", "24")]]) = [] ∧
      controlPump (fun _ _ => false) [.cmd "exec" []] =
        controlPump (fun _ _ => false) [] ∧
      controlPump (fun _ _ => false) [.cmd "window-resize" [("width", "x"), ("height", "24")]] =
        controlPump (fun _ _ => false) [] ∧
      controlPump (fun _ _ => false) [.cmd "window-resize" [("width", "80"), ("height", "y")]] =
        controlPump (fun _ _ => false) [] ∧
      controlPump (fun _ _ => false) [.cmd "window-resize" [("width", "80"), ("height", "24")]] =
        controlPump (fun _ _ => false) [] :=
  ⟨(controlPump_skip_terminate (fun _ _ => false) [.cmd "window-resize"
      [("width", "80"), ("height", "24")]] "exec" []).1,
   (controlPump_skip_terminate (fun _ _ => false) [] "exec" []).2.2.2.2.1 (by decide),
   (controlPump_skip_terminate (fun _ _ => false) [] "exec"
      [("width", "x"), ("height", "24")]).2.2.2.2.2.1 (by decide),
   (controlPump_skip_terminate (fun _ _ => false) [] "exec"
      [("width", "80"), ("height", "y")]).2.2.2.2.2.2.1 80 (by decide) (by decide),
   (controlPump_skip_terminate (fun _ _ => false) [] "exec"
      [("width", "80"), ("height", "24")]).2.2.2.2.2.2.2 80 24 (by decide) (by decide) rfl⟩

/-- Claim C8: whenever `containerConsolePost` returns an operation
response, its metadata is `fds` mapping `control` to the secret issued
for channel -1 and `0` (the decimal data channel id) to the secret issued
for channel 0, each registered channel appearing exactly once. -/
theorem metadata_shape (cLoad : Option ContainerInfo) (body : Except String ConsolePost)
    (rand : Int → Option String) (opOk : Bool)
    (meta : List (String × List (String × String))) (ws : consoleWs)
    (h : containerConsolePost cLoad body rand opOk = .operationResponse meta ws) :
    ∃ sc s0, rand (-1) = some sc ∧ rand 0 = some s0 ∧
      ws.fds = [(-1, sc), (0, s0)] ∧
      meta = [("fds", [("control", sc), ("0", s0)])] := by
  cases cLoad with
  | none => simp [containerConsolePost] at h
  | some c =>
    cases hr : c.running with
    | false => simp [containerConsolePost, hr] at h
    | true =>
      cases hf : c.frozen with
      | true => simp [containerConsolePost, hr, hf] at h
      | false =>
        cases body with
        | error e => simp [containerConsolePost, hr, hf] at h
        | ok post =>
          cases hi : c.idmap with
          | none => simp [containerConsolePost, hr, hf, hi] at h
          | some im =>
            cases h1 : rand (-1) with
            | none => simp [containerConsolePost, hr, hf, hi, h1] at h
            | some sc =>
              cases h2 : rand 0 with
              | none => simp [containerConsolePost, hr, hf, hi, h1, h2] at h
              | some s0 =>
                cases opOk with
                | false => simp [containerConsolePost, hr, hf, hi, h1, h2] at h
                | true =>
                  have ht : toString (0 : Int) = "0" := rfl
                  simp [containerConsolePost, hr, hf, hi, h1, h2, Metadata, ht] at h
                  refine ⟨sc, s0, rfl, rfl, ?_, ?_⟩
                  · rw [← h.2]
                  · rw [← h.1]

/-- Witness for claim C8: the theorem applied to a concrete successful
request. -/
theorem metadata_shape_witness :
    containerConsolePost (some ⟨true, false, some none⟩) (.ok ⟨120, 40⟩)
        (fun i => some (if i = -1 then "sa" else "sb")) true =
      .operationResponse [("fds", [("control", "sa"), ("0", "sb")])]
        { fds := [(-1, "sa"), (0, "sb")]
          conns := [(-1, none), (0, none)]
          allConnected := ⟨1, 0⟩
          controlConnected := ⟨1, 0⟩
          rootUid := 0
          rootGid := 0
          width := 120
          height := 40 } ∧
      ∃ sc s0, (fun i => some (if i = (-1 : Int) then "sa" else "sb")) (-1) = some sc ∧
        (fun i => some (if i = (-1 : Int) then "sa" else "sb")) 0 = some s0 ∧
        ({ fds := [(-1, "sa"), (0, "sb")]
           conns := [(-1, none), (0, none)]
           allConnected := ⟨1, 0⟩
           controlConnected := ⟨1, 0⟩
           rootUid := 0
           rootGid := 0
           width := 120
           height := 40 } : consoleWs).fds = [(-1, sc), (0, s0)] ∧
        [("fds", [("control", "sa"), ("0", "sb")])] =
          [("fds", [("control", sc), ("0", s0)])] :=
  ⟨by decide,
   metadata_shape (some ⟨true, false, some none⟩) (.ok ⟨120, 40⟩)
     (fun i => some (if i = -1 then "sa" else "sb")) true
     [("fds", [("control", "sa"), ("0", "sb")])]
     { fds := [(-1, "sa"), (0, "sb")]
       conns := [(-1, none), (0, none)]
       allConnected := ⟨1, 0⟩
       controlConnected := ⟨1, 0⟩
       rootUid := 0
       rootGid := 0
       width := 120
       height := 40 } (by decide)⟩
